import Mathlib

/-!
Shallow embedding of the backup subsystem of this repository
(src/src/utils/backup_manager.py): data model (BackupType, BackupStatus,
BackupDestination, BackupConfig, BackupRecord), the orchestrator
(BackupManager.create_backup, restore_backup, _cleanup_old_backups,
_move_to_destination, _verify_backup_integrity, get_backup_status), the
file-level encryption wrappers (EncryptionManager.encrypt_file /
decrypt_file) and the incremental archive builder
(FileBackupManager.create_incremental_backup).

External primitives (the Fernet cipher, the tarfile gzip container, the
hashlib sha256 digest, the boto3 S3 upload, wall-clock time) are not part
of the repository source; each is modelled from the spec with a doc
comment saying so.  Python exceptions are modelled as explicit branches:
an operation that the source wraps in try/except becomes a total Lean
function whose failure branch mirrors the except-handler of the source.
The filesystem is an association list from paths to file contents.
-/

namespace Backup

/-- Mirrors enum BackupType (backup_manager.py lines 26-32). -/
inductive BackupType where
  | full
  | incremental
  | differential
  | database_only
  | files_only
deriving DecidableEq, Repr

/-- Mirrors enum BackupStatus (backup_manager.py lines 34-40). -/
inductive BackupStatus where
  | pending
  | in_progress
  | completed
  | failed
  | corrupted
deriving DecidableEq, Repr

instance : BEq BackupStatus := ⟨fun a b => decide (a = b)⟩

/-- The .value string of each BackupStatus enum member. -/
def BackupStatus.value : BackupStatus → String
  | .pending => "pending"
  | .in_progress => "in_progress"
  | .completed => "completed"
  | .failed => "failed"
  | .corrupted => "corrupted"

/-- Mirrors enum BackupDestination (backup_manager.py lines 42-48). -/
inductive BackupDestination where
  | local
  | cloud_s3
  | cloud_google
  | ftp
  | network_drive
deriving DecidableEq, Repr

/-- Contents of one file in the modelled filesystem.  Raw files are byte
lists; the two external on-disk formats the code produces are modelled as
constructors: a gzip tar container (Modelled from the spec: the external
tarfile library, an invertible packaging of named entries) and a Fernet
token (Modelled from the spec: the external cryptography.fernet
authenticated symmetric cipher, which recovers the plaintext only under
the key that produced the token). -/
inductive FileData where
  | bytes (bs : List Nat)
  | archive (entries : List (String × List Nat))
  | encrypted (key : Nat) (inner : FileData)
deriving DecidableEq, Repr

/-- Modelled from the spec: on-disk size in bytes of a file (os.path.getsize).
Raw bytes count one each; the container and token formats carry a fixed
overhead over their payload. -/
def FileData.size : FileData → Nat
  | .bytes bs => bs.length
  | .archive entries => 1 + (entries.map (fun e => e.1.length + e.2.length)).sum
  | .encrypted _ inner => inner.size + 57

/-- Modelled from the spec: the ChecksumService content digest
(_calculate_checksum reads the file in chunks and returns the hashlib
sha256 hexdigest, an external primitive); modelled as a deterministic
structural digest of the content. -/
def FileData.digest : FileData → Nat
  | .bytes bs => bs.foldl (fun h b => h * 257 + b + 1) 2
  | .archive entries =>
      entries.foldl
        (fun h e => h * 263 + e.1.length + e.2.foldl (fun h2 b => h2 * 257 + b + 1) 3) 5
  | .encrypted k inner => inner.digest * 269 + k + 7

/-- Hexdigest string of the modelled sha256 (see FileData.digest); a
hexdigest is a fixed-width nonempty string, modelled with a constant
prefix on the rendered digest. -/
def sha256hex (d : FileData) : String := "sha" ++ toString d.digest

/-- The filesystem: paths mapped to file contents. -/
def FS := List (String × FileData)

instance : DecidableEq FS := by unfold FS; infer_instance

def fsLookup (fs : FS) (p : String) : Option FileData :=
  (fs.find? (fun e => e.1 = p)).map (fun e => e.2)

def fsRemove (fs : FS) (p : String) : FS :=
  fs.filter (fun e => ¬ e.1 = p)

/-- Writing truncates/overwrites any existing file at the path. -/
def fsWrite (fs : FS) (p : String) (d : FileData) : FS :=
  (p, d) :: fsRemove fs p

def fsExists (fs : FS) (p : String) : Bool :=
  (fsLookup fs p).isSome

/-- Mirrors dataclass BackupConfig (backup_manager.py lines 50-66).
The schedule expression and ftp settings play no role in the verified
operations and are carried as opaque strings; credentials are the
(access_key, secret_key) pair read by _move_to_destination. -/
structure BackupConfig where
  backup_type : BackupType
  destination : BackupDestination
  schedule_cron : String
  retention_days : Nat
  compression : Bool := true
  encryption : Bool := true
  verify_integrity : Bool := true
  max_backup_size_mb : Nat := 1000
  local_path : Option String := none
  cloud_bucket : Option String := none
  cloud_credentials : Option (String × String) := none
deriving DecidableEq, Repr

/-- Mirrors dataclass BackupRecord (backup_manager.py lines 68-80).
Timestamps are integer seconds; file_size_mb is an exact rational standing
for the Python float (the sizes compared in the claims are exactly
representable in binary floating point at this scale). -/
structure BackupRecord where
  id : String
  backup_type : BackupType
  status : BackupStatus
  created_at : Int
  completed_at : Option Int := none
  file_path : String := ""
  file_size_mb : ℚ := 0
  checksum : String := ""
  error_message : Option String := none
  metadata : Option (List (String × String)) := none
deriving DecidableEq, Repr

instance : BEq BackupRecord := ⟨fun a b => decide (a = b)⟩

/-- The BackupManager instance state: configuration, the in-memory record
set, the modelled filesystem, the EncryptionManager key, the scheduler
flag, and two modelled externals — the current UTC time (datetime.utcnow,
frozen for the duration of one call) and the outcome of the external boto3
S3 upload (Modelled from the spec: object-storage upload succeeds or fails
as the network decides; on success the router deletes the local temp copy
and returns the bucket+key form). -/
structure ManagerState where
  config : BackupConfig
  records : List BackupRecord
  fs : FS
  encKey : Nat
  is_running : Bool
  now : Int
  uploadOk : Bool
deriving DecidableEq

/-! ## EncryptionManager (backup_manager.py lines 249-288)

encrypt_file reads the whole input file, encrypts it with the held Fernet
key, writes the ciphertext, and returns True; any failure (missing input
file) is caught and returns False.  decrypt_file is the inverse; a
malformed token or a key mismatch makes cipher.decrypt raise InvalidToken,
which is caught and returns False without writing the output file. -/

def encrypt_file (key : Nat) (fs : FS) (input_path output_path : String) : Bool × FS :=
  match fsLookup fs input_path with
  | none => (false, fs)
  | some d => (true, fsWrite fs output_path (FileData.encrypted key d))

def decrypt_file (key : Nat) (fs : FS) (input_path output_path : String) : Bool × FS :=
  match fsLookup fs input_path with
  | none => (false, fs)
  | some d =>
      match d with
      | FileData.encrypted k inner =>
          if k = key then (true, fsWrite fs output_path inner) else (false, fs)
      | _ => (false, fs)

/-! ## FileBackupManager.create_incremental_backup (lines 215-247)

The walk over the source tree is given as data: the list of files under
source_path, each with its path, last-modified time and content.  The
function keeps exactly the files whose mtime is strictly greater than the
cutoff; when none qualify it logs and returns True without opening any
archive; otherwise it writes a gzip tar of the qualifying files, each
stored under its path relative to source_path, and returns True. -/

/-- One file met by os.walk: absolute path, os.path.getmtime, content. -/
structure SrcFile where
  path : String
  mtime : Int
  data : List Nat
deriving DecidableEq, Repr

/-- os.path.relpath(file_path, source_path) for a file inside the tree:
drop the source prefix and its trailing separator. -/
def relpath (file_path source_path : String) : String :=
  (file_path.drop (source_path.length + 1))

def create_incremental_backup (tree : List SrcFile) (source_path backup_path : String)
    (last_backup_time : Int) (fs : FS) : Bool × FS :=
  let modified_files := tree.filter (fun f => last_backup_time < f.mtime)
  if modified_files.isEmpty then (true, fs)
  else
    (true, fsWrite fs backup_path
      (FileData.archive (modified_files.map (fun f => (relpath f.path source_path, f.data)))))

/-! ## BackupManager helpers -/

/-- _backup_database_only (lines 450-453): stub, returns True. -/
def backup_database_only (_backup_path : String) : Bool := true

/-- _backup_files_only (lines 455-458): stub, returns True. -/
def backup_files_only (_backup_path : String) : Bool := true

/-- _backup_full (lines 460-463): stub, returns True. -/
def backup_full (_backup_path : String) : Bool := true

/-- _move_to_destination (lines 473-498).  LOCAL: os.path.join the
configured directory with the filename and shutil.move the artifact there
(a None local_path makes os.path.join raise, caught → None; a missing
source makes shutil.move raise, caught → None).  CLOUD_S3: read the two
credentials (a None dict raises, caught → None), run the external upload;
on success delete the local temp file and return the s3 location; on
upload failure fall through to return None.  Every other destination falls
through to return None. -/
def move_to_destination (cfg : BackupConfig) (uploadOk : Bool) (fs : FS)
    (source_path filename : String) : Option (String × FS) :=
  match cfg.destination with
  | .local =>
      match cfg.local_path with
      | none => none
      | some lp =>
          let destination_path := lp ++ "/" ++ filename
          match fsLookup fs source_path with
          | none => none
          | some d => some (destination_path, fsWrite (fsRemove fs source_path) destination_path d)
  | .cloud_s3 =>
      match cfg.cloud_credentials with
      | none => none
      | some _ =>
          if uploadOk then
            some ("s3://" ++ (cfg.cloud_bucket.map id).getD "None" ++ "/" ++ filename,
                  fsRemove fs source_path)
          else none
  | _ => none

/-- _verify_backup_integrity (lines 500-513): False when the file is
absent, else recompute the checksum and compare with the stored one;
internal exceptions are caught and yield False. -/
def verify_backup_integrity (fs : FS) (r : BackupRecord) : Bool :=
  match fsLookup fs r.file_path with
  | none => false
  | some d => sha256hex d = r.checksum

/-- Remove the first occurrence equal to x, as Python list.remove does;
when x is absent the per-record except-handler logs and skips, so the
list is returned unchanged. -/
def removeFirst (l : List BackupRecord) (x : BackupRecord) : List BackupRecord :=
  match l with
  | [] => []
  | y :: ys => if y = x then ys else y :: removeFirst ys x

/-- The body of the per-record loop of _cleanup_old_backups: remove the
artifact file when present, then remove the record from the set. -/
def cleanupStep (st : List BackupRecord × FS) (b : BackupRecord) : List BackupRecord × FS :=
  let fs2 := if fsExists st.2 b.file_path then fsRemove st.2 b.file_path else st.2
  (removeFirst st.1 b, fs2)

/-- _cleanup_old_backups (lines 515-535): select the COMPLETED records
strictly older than now minus retention_days, then for each one remove its
artifact file when present and remove the record from the set; per-record
failures are skipped. -/
def cleanup_old_backups (cfg : BackupConfig) (now : Int) (records : List BackupRecord)
    (fs : FS) : List BackupRecord × FS :=
  let cutoff_date : Int := now - (cfg.retention_days : Int) * 86400
  let old_backups := records.filter
    (fun r => decide (r.created_at < cutoff_date) && r.status == BackupStatus.completed)
  old_backups.foldl cleanupStep (records, fs)

/-! ## BackupManager.create_backup (lines 372-448) -/

/-- The timestamp-derived backup id (strftime of utcnow, modelled as the
decimal rendering of the current time). -/
def backupId (now : Int) : String := "backup_" ++ toString now

/-- backup_filename: the id plus .tar.gz, plus .enc when encryption is on. -/
def backupFilename (cfg : BackupConfig) (now : Int) : String :=
  backupId now ++ ".tar.gz" ++ (if cfg.encryption then ".enc" else "")

/-- temp_path: the artifact is built under /tmp. -/
def tempPath (cfg : BackupConfig) (now : Int) : String :=
  "/tmp/" ++ backupFilename cfg now

/-- The kind dispatch of lines 396-402: database-only and files-only get
their dedicated strategies, every other kind falls to the full build. -/
def build_dispatch (bt : BackupType) (tp : String) : Bool :=
  match bt with
  | .database_only => backup_database_only tp
  | .files_only => backup_files_only tp
  | _ => backup_full tp

/-- Result of one create_backup call: the returned record (the same object
that sits in the record set), the post-call manager state, and two ghost
observations read off the source line by line — the successive values
assigned to the record's status field, and whether _cleanup_old_backups
was reached. -/
structure CreateResult where
  record : BackupRecord
  state : ManagerState
  statusTrace : List BackupStatus
  cleanupRan : Bool
deriving DecidableEq

/-- create_backup.  The record is allocated IN_PROGRESS and appended to
the record set at once; the try-body builds the artifact (the three build
strategies are the source's stubs), sizes and checksums it, enforces the
size limit (deleting the temp file on violation), routes it to the
destination, marks COMPLETED, optionally re-verifies integrity
(downgrading to CORRUPTED on mismatch), and runs retention cleanup; each
early return skips the remaining steps.  The os.path.getsize call on a
missing temp file raises; the top-level except-handler (lines 442-446)
turns that into FAILED with the exception text and a completed_at stamp. -/
def create_backup (st : ManagerState) (backup_type_arg : Option BackupType) : CreateResult :=
  let backup_type := backup_type_arg.getD st.config.backup_type
  let rec0 : BackupRecord :=
    { id := backupId st.now, backup_type := backup_type,
      status := BackupStatus.in_progress, created_at := st.now }
  let backup_filename := backupFilename st.config st.now
  let temp_path := tempPath st.config st.now
  let success := build_dispatch backup_type temp_path
  if success = false then
    let r := { rec0 with
      status := BackupStatus.failed,
      error_message := some "Backup creation failed" }
    { record := r, state := { st with records := st.records ++ [r] },
      statusTrace := [BackupStatus.in_progress, BackupStatus.failed], cleanupRan := false }
  else
    match fsLookup st.fs temp_path with
    | none =>
        let r := { rec0 with
          status := BackupStatus.failed,
          error_message := some ("No such file or directory: " ++ temp_path),
          completed_at := some st.now }
        { record := r, state := { st with records := st.records ++ [r] },
          statusTrace := [BackupStatus.in_progress, BackupStatus.failed], cleanupRan := false }
    | some content =>
        let file_size_mb : ℚ := (content.size : ℚ) / (1024 * 1024)
        let rec1 := { rec0 with file_size_mb := file_size_mb, checksum := sha256hex content }
        if (st.config.max_backup_size_mb : ℚ) < file_size_mb then
          let r := { rec1 with
            status := BackupStatus.failed,
            error_message :=
              some ("Backup size exceeds limit: " ++ toString file_size_mb ++ "MB") }
          { record := r,
            state := { st with records := st.records ++ [r], fs := fsRemove st.fs temp_path },
            statusTrace := [BackupStatus.in_progress, BackupStatus.failed], cleanupRan := false }
        else
          match move_to_destination st.config st.uploadOk st.fs temp_path backup_filename with
          | none =>
              let r := { rec1 with
                status := BackupStatus.failed,
                error_message := some "Failed to move backup to destination" }
              { record := r, state := { st with records := st.records ++ [r] },
                statusTrace := [BackupStatus.in_progress, BackupStatus.failed],
                cleanupRan := false }
          | some (final_path, fs1) =>
              let rec2 := { rec1 with
                file_path := final_path,
                status := BackupStatus.completed,
                completed_at := some st.now }
              let bad := st.config.verify_integrity && !(verify_backup_integrity fs1 rec2)
              let rec3 :=
                if bad then
                  { rec2 with
                    status := BackupStatus.corrupted,
                    error_message := some "Backup integrity verification failed" }
                else rec2
              let cleaned := cleanup_old_backups st.config st.now (st.records ++ [rec3]) fs1
              { record := rec3,
                state := { st with records := cleaned.1, fs := cleaned.2 },
                statusTrace :=
                  [BackupStatus.in_progress, BackupStatus.completed]
                    ++ (if bad then [BackupStatus.corrupted] else []),
                cleanupRan := true }

/-! ## BackupManager.restore_backup (lines 537-570) -/

/-- Unpack every archive entry under restore_path, as tar.extractall does. -/
def extractAll (fs : FS) (entries : List (String × List Nat)) (restore_path : String) : FS :=
  entries.foldl (fun acc e => fsWrite acc (restore_path ++ "/" ++ e.1) (FileData.bytes e.2)) fs

/-- The decryption branch of restore_backup (lines 551-559): when the
artifact name ends in .enc, decrypt it to the sibling path obtained by
stripping the suffix (str.replace removes every occurrence, as in the
source) and extract from there; otherwise extract the stored artifact
directly.  Returns (step succeeded, extract path, filesystem after). -/
def decryptStep (st : ManagerState) (backup_record : BackupRecord) : Bool × String × FS :=
  if backup_record.file_path.endsWith ".enc" then
    let decrypted_path := backup_record.file_path.replace ".enc" ""
    let d := decrypt_file st.encKey st.fs backup_record.file_path decrypted_path
    (d.1, decrypted_path, d.2)
  else (true, backup_record.file_path, st.fs)

/-- restore_backup: look the record up by id (failure when absent), verify
integrity against the stored checksum (failure on mismatch, before any
decryption or extraction), decrypt first when the artifact name ends in
.enc (cipher failure aborts), then open the archive and extract it into
restore_path (a missing or non-archive file makes tarfile.open raise,
caught by the outer handler → failure).  No cleanup is performed on any
failure path. -/
def restore_backup (st : ManagerState) (backup_id restore_path : String) : Bool × ManagerState :=
  match st.records.find? (fun r => r.id == backup_id) with
  | none => (false, st)
  | some backup_record =>
      if verify_backup_integrity st.fs backup_record = false then (false, st)
      else
        let step := decryptStep st backup_record
        if step.1 = false then (false, { st with fs := step.2.2 })
        else
          match fsLookup step.2.2 step.2.1 with
          | some (FileData.archive entries) =>
              (true, { st with fs := extractAll step.2.2 entries restore_path })
          | _ => (false, { st with fs := step.2.2 })

/-! ## BackupManager.get_backup_status (lines 572-594) -/

/-- Python max(records, key=created_at): the first record attaining the
maximal created_at (later elements replace only when strictly greater). -/
def maxByCreated : List BackupRecord → Option BackupRecord
  | [] => none
  | r :: rs => some (rs.foldl (fun best x => if best.created_at < x.created_at then x else best) r)

/-- Modelled from the spec: Python round(x, 2) on the float total; exact
rounding of the rational to centi-units (tie behaviour simplified to
round-half-up, which no claim exercises). -/
def round2 (q : ℚ) : ℚ := ((round (q * 100) : ℤ) : ℚ) / 100

/-- The dict returned by get_backup_status, with last_backup flattened to
(id, status.value, created_at, size_mb). -/
structure StatusReport where
  total_backups : Nat
  completed_backups : Nat
  failed_backups : Nat
  total_size_mb : ℚ
  last_backup : Option (String × String × Int × ℚ)
  scheduler_running : Bool
deriving DecidableEq, Repr

/-! ## Status-machine vocabulary (spec section 3): PENDING and IN_PROGRESS
are transient, COMPLETED, FAILED and CORRUPTED are terminal. -/

def BackupStatus.isTerminal : BackupStatus → Bool
  | .completed => true
  | .failed => true
  | .corrupted => true
  | _ => false

/-- One status transition is allowed out of a terminal state only as the
documented COMPLETED to CORRUPTED downgrade; transitions out of transient
states are unconstrained by the claim. -/
def stepAllowed (a b : BackupStatus) : Bool :=
  if a.isTerminal then a == BackupStatus.completed && b == BackupStatus.corrupted else true

/-- Every adjacent pair of a status history is an allowed transition. -/
def transitionsOk : List BackupStatus → Bool
  | a :: b :: rest => stepAllowed a b && transitionsOk (b :: rest)
  | _ => true

def get_backup_status (st : ManagerState) : StatusReport :=
  let total_backups := st.records.length
  let completed_backups :=
    (st.records.filter (fun r => r.status == BackupStatus.completed)).length
  let failed_backups :=
    (st.records.filter (fun r => r.status == BackupStatus.failed)).length
  let total_size_mb :=
    ((st.records.filter (fun r => r.status == BackupStatus.completed)).map
      (fun r => r.file_size_mb)).sum
  let last_backup := maxByCreated st.records
  { total_backups := total_backups
    completed_backups := completed_backups
    failed_backups := failed_backups
    total_size_mb := round2 total_size_mb
    last_backup := last_backup.map (fun r => (r.id, r.status.value, r.created_at, r.file_size_mb))
    scheduler_running := st.is_running }

/-! ## Concrete configurations and states used as test vectors -/

def cfgLocal : BackupConfig :=
  { backup_type := BackupType.database_only, destination := BackupDestination.local,
    schedule_cron := "0 2 * * *", retention_days := 7, encryption := false,
    verify_integrity := true, max_backup_size_mb := 1000, local_path := some "/backups" }

def cfgFtp : BackupConfig :=
  { cfgLocal with destination := BackupDestination.ftp, local_path := none }

def cfgZero : BackupConfig :=
  { cfgLocal with max_backup_size_mb := 0 }

/-- A COMPLETED record old enough to be past every retention cutoff used
in the test vectors. -/
def oldRec : BackupRecord :=
  { id := "backup_0", backup_type := BackupType.full, status := BackupStatus.completed,
    created_at := 0, completed_at := some 10, file_path := "/backups/backup_0.tar.gz",
    file_size_mb := 1, checksum := "sha1" }

/-- Ten days after epoch with a seven-day retention: oldRec is stale, and
no temp artifact exists, so the job takes the exception path. -/
def stC3 : ManagerState :=
  { config := cfgLocal, records := [oldRec], fs := [], encKey := 0,
    is_running := false, now := 864000, uploadOk := true }

/-- An unsupported destination (FTP) with a present temp artifact: the
job reaches destination routing and fails there. -/
def stC4 : ManagerState :=
  { config := cfgFtp, records := [], fs := [(tempPath cfgFtp 7, FileData.bytes [])],
    encKey := 0, is_running := false, now := 7, uploadOk := true }

/-- A COMPLETED record whose stored checksum was corrupted by hand. -/
def rBad : BackupRecord :=
  { id := "b1", backup_type := BackupType.full, status := BackupStatus.completed,
    created_at := 1, file_path := "/backups/b.tar.gz", checksum := "corrupted" }

def stC5a : ManagerState :=
  { config := cfgLocal, records := [], fs := [], encKey := 0,
    is_running := false, now := 1, uploadOk := true }

def stC5b : ManagerState :=
  { config := cfgLocal, records := [rBad],
    fs := [("/backups/b.tar.gz", FileData.bytes [1])], encKey := 0,
    is_running := false, now := 2, uploadOk := true }

/-- Size limit zero with an empty (zero-byte) artifact: exactly at the
boundary. -/
def stW6a : ManagerState :=
  { config := cfgZero, records := [], fs := [(tempPath cfgZero 5, FileData.bytes [])],
    encKey := 0, is_running := false, now := 5, uploadOk := true }

/-- Size limit zero with a one-byte artifact: one byte over the boundary. -/
def stW6b : ManagerState :=
  { config := cfgZero, records := [], fs := [(tempPath cfgZero 6, FileData.bytes [0])],
    encKey := 0, is_running := false, now := 6, uploadOk := true }

def rComp : BackupRecord :=
  { id := "backup_9", backup_type := BackupType.full, status := BackupStatus.completed,
    created_at := 9, file_path := "/backups/backup_9.tar.gz", file_size_mb := 2,
    checksum := "sha9" }

def rCor : BackupRecord :=
  { id := "backup_8", backup_type := BackupType.full, status := BackupStatus.corrupted,
    created_at := 8, file_path := "/backups/backup_8.tar.gz", file_size_mb := 5,
    checksum := "sha8" }

def stEmpty : ManagerState :=
  { config := cfgLocal, records := [], fs := [], encKey := 0,
    is_running := false, now := 0, uploadOk := true }

def st10 : ManagerState :=
  { stEmpty with records := [rComp] }

/-- A two-file source tree for the incremental builder: one file modified
at time 10, one at time 3. -/
def treeW : List SrcFile :=
  [{ path := "/srcdir/a.txt", mtime := 10, data := [1] },
   { path := "/srcdir/b.txt", mtime := 3, data := [2] }]

/-! ## Helper lemmas -/

theorem build_dispatch_true (bt : BackupType) (tp : String) : build_dispatch bt tp = true := by
  cases bt <;> rfl

theorem fsLookup_write_self (fs : FS) (p : String) (d : FileData) :
    fsLookup (fsWrite fs p d) p = some d := by
  simp [fsLookup, fsWrite, List.find?]

theorem fsLookup_write_ne (fs : FS) (p q : String) (d : FileData) (h : p ≠ q) :
    fsLookup (fsWrite fs p d) q = fsLookup fs q := by
  have key : ∀ l : FS,
      List.find? (fun a => !decide (a.1 = p) && decide (a.1 = q)) l
        = List.find? (fun e => decide (e.1 = q)) l := by
    intro l
    induction l with
    | nil => rfl
    | cons e rest ih =>
        by_cases he : e.1 = q
        · have hep : ¬ e.1 = p := by
            intro hh
            exact h (by rw [← hh, he])
          have hqp : ¬ q = p := fun hh => h hh.symm
          simp [List.find?, he, hep, hqp]
        · by_cases hp : e.1 = p <;> simp [List.find?, he, hp, ih, h]
  simp [fsLookup, fsWrite, fsRemove, List.find?, h, key fs]

theorem fsLookup_remove_self (fs : FS) (p : String) :
    fsLookup (fsRemove fs p) p = none := by
  induction fs with
  | nil => rfl
  | cons e rest ih =>
      by_cases he : e.1 = p
      · simpa [fsLookup, fsRemove, List.filter, he] using ih
      · simpa [fsLookup, fsRemove, List.find?, List.filter, he] using ih

theorem removeFirst_subset (l : List BackupRecord) (x : BackupRecord) :
    removeFirst l x ⊆ l := by
  induction l with
  | nil => exact List.nil_subset _
  | cons y ys ih =>
      show (if y = x then ys else y :: removeFirst ys x) ⊆ y :: ys
      by_cases h : y = x
      · rw [if_pos h]; exact List.subset_cons_self y ys
      · rw [if_neg h]; exact List.cons_subset_cons y ih

theorem foldl_cleanupStep_subset (l : List BackupRecord) :
    ∀ acc : List BackupRecord × FS, (l.foldl cleanupStep acc).1 ⊆ acc.1 := by
  induction l with
  | nil => intro acc; exact List.Subset.refl _
  | cons b bs ih =>
      intro acc
      exact (ih (cleanupStep acc b)).trans (removeFirst_subset acc.1 b)

theorem cleanup_old_backups_subset (cfg : BackupConfig) (now : Int)
    (records : List BackupRecord) (fs : FS) :
    (cleanup_old_backups cfg now records fs).1 ⊆ records := by
  unfold cleanup_old_backups
  exact foldl_cleanupStep_subset _ (records, fs)

theorem sha256hex_ne_empty (d : FileData) : sha256hex d ≠ "" := by
  intro h
  have hl := congrArg String.length h
  rw [sha256hex, String.length_append] at hl
  have h2 : ("sha" : String).length = 3 := rfl
  have h3 : ("" : String).length = 0 := rfl
  omega

theorem move_to_destination_ne_empty (cfg : BackupConfig) (uploadOk : Bool) (fs : FS)
    (sp fn fp : String) (fs1 : FS)
    (h : move_to_destination cfg uploadOk fs sp fn = some (fp, fs1)) : fp ≠ "" := by
  intro hfp
  subst hfp
  unfold move_to_destination at h
  split at h
  · split at h
    · exact Option.noConfusion h
    · split at h
      · exact Option.noConfusion h
      · have h1 := (Prod.mk.injEq .. ▸ Option.some.injEq .. ▸ h).1
        have hl := congrArg String.length h1
        rw [String.length_append, String.length_append] at hl
        have h2 : ("/" : String).length = 1 := rfl
        have h3 : ("" : String).length = 0 := rfl
        omega
  · split at h
    · exact Option.noConfusion h
    · split at h
      · have h1 := (Prod.mk.injEq .. ▸ Option.some.injEq .. ▸ h).1
        have hl := congrArg String.length h1
        rw [String.length_append, String.length_append] at hl
        have h2 : ("s3://" : String).length = 5 := rfl
        have h3 : ("/" : String).length = 1 := rfl
        have h4 : ("" : String).length = 0 := rfl
        omega
      · exact Option.noConfusion h
  · exact Option.noConfusion h

/-! ## Path lemmas: the value of create_backup on each of its branches. -/

/-- The getsize exception path: the temp artifact is missing, so
os.path.getsize raises and the top-level handler stamps the record
FAILED; no size, checksum, destination or cleanup step runs. -/
theorem create_backup_of_lookup_none (st : ManagerState) (arg : Option BackupType)
    (h : fsLookup st.fs (tempPath st.config st.now) = none) :
    create_backup st arg =
      { record :=
          { id := backupId st.now, backup_type := arg.getD st.config.backup_type,
            status := BackupStatus.failed, created_at := st.now,
            completed_at := some st.now,
            error_message :=
              some ("No such file or directory: " ++ tempPath st.config st.now) },
        state :=
          { st with
            records := st.records ++
              [{ id := backupId st.now, backup_type := arg.getD st.config.backup_type,
                 status := BackupStatus.failed, created_at := st.now,
                 completed_at := some st.now,
                 error_message :=
                   some ("No such file or directory: " ++ tempPath st.config st.now) }] },
        statusTrace := [BackupStatus.in_progress, BackupStatus.failed],
        cleanupRan := false } := by
  unfold create_backup
  simp only [build_dispatch_true, h]
  simp

/-- The size-limit path: the artifact exists but exceeds
max_backup_size_mb, so the record fails with the size message and the
temp file is deleted; no destination or cleanup step runs. -/
theorem create_backup_of_size_exceeded (st : ManagerState) (arg : Option BackupType)
    (content : FileData)
    (hfs : fsLookup st.fs (tempPath st.config st.now) = some content)
    (hsz : (st.config.max_backup_size_mb : ℚ) < (content.size : ℚ) / (1024 * 1024)) :
    create_backup st arg =
      { record :=
          { id := backupId st.now, backup_type := arg.getD st.config.backup_type,
            status := BackupStatus.failed, created_at := st.now,
            file_size_mb := (content.size : ℚ) / (1024 * 1024),
            checksum := sha256hex content,
            error_message :=
              some ("Backup size exceeds limit: "
                ++ toString ((content.size : ℚ) / (1024 * 1024)) ++ "MB") },
        state :=
          { st with
            records := st.records ++
              [{ id := backupId st.now, backup_type := arg.getD st.config.backup_type,
                 status := BackupStatus.failed, created_at := st.now,
                 file_size_mb := (content.size : ℚ) / (1024 * 1024),
                 checksum := sha256hex content,
                 error_message :=
                   some ("Backup size exceeds limit: "
                     ++ toString ((content.size : ℚ) / (1024 * 1024)) ++ "MB") }],
            fs := fsRemove st.fs (tempPath st.config st.now) },
        statusTrace := [BackupStatus.in_progress, BackupStatus.failed],
        cleanupRan := false } := by
  unfold create_backup
  simp only [build_dispatch_true, hfs]
  rw [if_pos hsz]
  simp

/-- The destination-failure path: the artifact exists and is within the
size limit, but the router cannot place it; the record fails with the
destination message, keeping the size and checksum already stamped on it;
no cleanup step runs. -/
theorem create_backup_of_move_none (st : ManagerState) (arg : Option BackupType)
    (content : FileData)
    (hfs : fsLookup st.fs (tempPath st.config st.now) = some content)
    (hsz : ¬ ((st.config.max_backup_size_mb : ℚ) < (content.size : ℚ) / (1024 * 1024)))
    (hmv : move_to_destination st.config st.uploadOk st.fs (tempPath st.config st.now)
             (backupFilename st.config st.now) = none) :
    create_backup st arg =
      { record :=
          { id := backupId st.now, backup_type := arg.getD st.config.backup_type,
            status := BackupStatus.failed, created_at := st.now,
            file_size_mb := (content.size : ℚ) / (1024 * 1024),
            checksum := sha256hex content,
            error_message := some "Failed to move backup to destination" },
        state :=
          { st with
            records := st.records ++
              [{ id := backupId st.now, backup_type := arg.getD st.config.backup_type,
                 status := BackupStatus.failed, created_at := st.now,
                 file_size_mb := (content.size : ℚ) / (1024 * 1024),
                 checksum := sha256hex content,
                 error_message := some "Failed to move backup to destination" }] },
        statusTrace := [BackupStatus.in_progress, BackupStatus.failed],
        cleanupRan := false } := by
  unfold create_backup
  simp only [build_dispatch_true, hfs]
  rw [if_neg hsz]
  simp only [hmv]
  simp

/-- The placement path: the artifact reaches the destination, the record
is marked COMPLETED (downgraded to CORRUPTED when the configured
re-verification fails), and retention cleanup runs. -/
theorem create_backup_of_move_some (st : ManagerState) (arg : Option BackupType)
    (content : FileData) (final_path : String) (fs1 : FS)
    (hfs : fsLookup st.fs (tempPath st.config st.now) = some content)
    (hsz : ¬ ((st.config.max_backup_size_mb : ℚ) < (content.size : ℚ) / (1024 * 1024)))
    (hmv : move_to_destination st.config st.uploadOk st.fs (tempPath st.config st.now)
             (backupFilename st.config st.now) = some (final_path, fs1)) :
    create_backup st arg =
      (let rec2 : BackupRecord :=
        { id := backupId st.now, backup_type := arg.getD st.config.backup_type,
          status := BackupStatus.completed, created_at := st.now,
          completed_at := some st.now, file_path := final_path,
          file_size_mb := (content.size : ℚ) / (1024 * 1024),
          checksum := sha256hex content }
      let bad := st.config.verify_integrity && !(verify_backup_integrity fs1 rec2)
      let rec3 :=
        if bad then
          { rec2 with
            status := BackupStatus.corrupted,
            error_message := some "Backup integrity verification failed" }
        else rec2
      let cleaned := cleanup_old_backups st.config st.now (st.records ++ [rec3]) fs1
      { record := rec3,
        state := { st with records := cleaned.1, fs := cleaned.2 },
        statusTrace :=
          [BackupStatus.in_progress, BackupStatus.completed]
            ++ (if bad then [BackupStatus.corrupted] else []),
        cleanupRan := true }) := by
  unfold create_backup
  simp only [build_dispatch_true, hfs]
  rw [if_neg hsz]
  simp only [hmv]
  simp

/-! ## Restore helper lemmas -/

theorem decrypt_file_false_fs (key : Nat) (fs : FS) (i o : String)
    (h : (decrypt_file key fs i o).1 = false) : (decrypt_file key fs i o).2 = fs := by
  unfold decrypt_file at h ⊢
  split at h
  · rfl
  · split at h
    · split at h
      · simp at h
      · simp_all
    · rfl

theorem decrypt_file_fs (key : Nat) (fs : FS) (i o : String) :
    (decrypt_file key fs i o).2 = fs ∨
    ∃ d, (decrypt_file key fs i o).2 = fsWrite fs o d := by
  unfold decrypt_file
  split
  · exact Or.inl rfl
  · split
    · split
      · exact Or.inr ⟨_, rfl⟩
      · exact Or.inl rfl
    · exact Or.inl rfl

theorem decryptStep_enc (st : ManagerState) (r : BackupRecord)
    (he : r.file_path.endsWith ".enc" = true) :
    decryptStep st r =
      ((decrypt_file st.encKey st.fs r.file_path (r.file_path.replace ".enc" "")).1,
       r.file_path.replace ".enc" "",
       (decrypt_file st.encKey st.fs r.file_path (r.file_path.replace ".enc" "")).2) := by
  unfold decryptStep
  rw [if_pos he]

theorem decryptStep_plain (st : ManagerState) (r : BackupRecord)
    (he : ¬ r.file_path.endsWith ".enc" = true) :
    decryptStep st r = (true, r.file_path, st.fs) := by
  unfold decryptStep
  rw [if_neg he]

theorem decryptStep_false_fs (st : ManagerState) (r : BackupRecord)
    (h : (decryptStep st r).1 = false) : (decryptStep st r).2.2 = st.fs := by
  by_cases he : r.file_path.endsWith ".enc" = true
  · rw [decryptStep_enc st r he] at h ⊢
    exact decrypt_file_false_fs _ _ _ _ h
  · rw [decryptStep_plain st r he] at h
    simp at h

theorem decryptStep_fs (st : ManagerState) (r : BackupRecord) :
    (decryptStep st r).2.2 = st.fs ∨
    ∃ dp inner, (decryptStep st r).2.2 = fsWrite st.fs dp inner := by
  by_cases he : r.file_path.endsWith ".enc" = true
  · rw [decryptStep_enc st r he]
    rcases decrypt_file_fs st.encKey st.fs r.file_path (r.file_path.replace ".enc" "") with h | ⟨d, h⟩
    · exact Or.inl h
    · exact Or.inr ⟨_, d, h⟩
  · rw [decryptStep_plain st r he]
    exact Or.inl rfl

/-- Whatever restore_backup does, the post-state differs from the initial
state at most in its filesystem component. -/
theorem restore_backup_state (st : ManagerState) (backup_id restore_path : String) :
    ∃ f, (restore_backup st backup_id restore_path).2 = { st with fs := f } := by
  unfold restore_backup
  split
  · exact ⟨st.fs, rfl⟩
  · split
    · exact ⟨st.fs, rfl⟩
    · dsimp only
      split
      · exact ⟨_, rfl⟩
      · split
        · exact ⟨_, rfl⟩
        · exact ⟨_, rfl⟩

/-! ## Claims -/

/-- C1: create_backup is total over every manager state and optional
backup-kind argument (every exception of the source is absorbed by a
handler, so nothing propagates to the caller), and the record it returns
always carries a terminal status — COMPLETED, FAILED or CORRUPTED, never
PENDING or IN_PROGRESS. -/
theorem create_backup_returns_terminal (st : ManagerState) (arg : Option BackupType) :
    (create_backup st arg).record.status = BackupStatus.completed ∨
    (create_backup st arg).record.status = BackupStatus.failed ∨
    (create_backup st arg).record.status = BackupStatus.corrupted := by
  rcases hfs : fsLookup st.fs (tempPath st.config st.now) with _ | content
  · rw [create_backup_of_lookup_none st arg hfs]
    exact Or.inr (Or.inl rfl)
  · by_cases hsz : (st.config.max_backup_size_mb : ℚ) < (content.size : ℚ) / (1024 * 1024)
    · rw [create_backup_of_size_exceeded st arg content hfs hsz]
      exact Or.inr (Or.inl rfl)
    · rcases hmv : move_to_destination st.config st.uploadOk st.fs (tempPath st.config st.now)
          (backupFilename st.config st.now) with _ | ⟨fp, fs1⟩
      · rw [create_backup_of_move_none st arg content hfs hsz hmv]
        exact Or.inr (Or.inl rfl)
      · rw [create_backup_of_move_some st arg content fp fs1 hfs hsz hmv]
        dsimp only
        split
        · exact Or.inr (Or.inr rfl)
        · exact Or.inl rfl

/-- C2: each orchestrator operation respects the terminal statuses.  The
status history of the record driven by create_backup never leaves a
terminal status except by the single COMPLETED-to-CORRUPTED downgrade
(transitionsOk); every record in the post-call record set is either an
unchanged pre-call record or the new record itself; restore_backup leaves
the record set untouched; and cleanup only ever removes records, never
altering a surviving one. -/
theorem status_never_leaves_terminal (st : ManagerState) (arg : Option BackupType)
    (backup_id restore_path : String) :
    transitionsOk (create_backup st arg).statusTrace = true ∧
    (create_backup st arg).state.records ⊆ st.records ++ [(create_backup st arg).record] ∧
    (restore_backup st backup_id restore_path).2.records = st.records ∧
    (cleanup_old_backups st.config st.now st.records st.fs).1 ⊆ st.records := by
  refine ⟨?_, ?_, ?_, cleanup_old_backups_subset st.config st.now st.records st.fs⟩
  · rcases hfs : fsLookup st.fs (tempPath st.config st.now) with _ | content
    · rw [create_backup_of_lookup_none st arg hfs]; rfl
    · by_cases hsz : (st.config.max_backup_size_mb : ℚ) < (content.size : ℚ) / (1024 * 1024)
      · rw [create_backup_of_size_exceeded st arg content hfs hsz]; rfl
      · rcases hmv : move_to_destination st.config st.uploadOk st.fs (tempPath st.config st.now)
            (backupFilename st.config st.now) with _ | ⟨fp, fs1⟩
        · rw [create_backup_of_move_none st arg content hfs hsz hmv]; rfl
        · rw [create_backup_of_move_some st arg content fp fs1 hfs hsz hmv]
          dsimp only
          split <;> rfl
  · rcases hfs : fsLookup st.fs (tempPath st.config st.now) with _ | content
    · rw [create_backup_of_lookup_none st arg hfs]
      exact List.Subset.refl _
    · by_cases hsz : (st.config.max_backup_size_mb : ℚ) < (content.size : ℚ) / (1024 * 1024)
      · rw [create_backup_of_size_exceeded st arg content hfs hsz]
        exact List.Subset.refl _
      · rcases hmv : move_to_destination st.config st.uploadOk st.fs (tempPath st.config st.now)
            (backupFilename st.config st.now) with _ | ⟨fp, fs1⟩
        · rw [create_backup_of_move_none st arg content hfs hsz hmv]
          exact List.Subset.refl _
        · rw [create_backup_of_move_some st arg content fp fs1 hfs hsz hmv]
          dsimp only
          exact cleanup_old_backups_subset _ _ _ _
  · obtain ⟨f, hf⟩ := restore_backup_state st backup_id restore_path
    rw [hf]

/-- C3 amended: retention cleanup runs exactly on the invocations whose
artifact reached the destination (the record ends COMPLETED or
CORRUPTED); on the FAILED early-return paths — build failure, missing
temp artifact, size violation, destination failure — create_backup
returns without running cleanup. -/
theorem cleanup_runs_iff_placed (st : ManagerState) (arg : Option BackupType) :
    (create_backup st arg).cleanupRan = true ↔
      ((create_backup st arg).record.status = BackupStatus.completed ∨
       (create_backup st arg).record.status = BackupStatus.corrupted) := by
  rcases hfs : fsLookup st.fs (tempPath st.config st.now) with _ | content
  · rw [create_backup_of_lookup_none st arg hfs]; simp
  · by_cases hsz : (st.config.max_backup_size_mb : ℚ) < (content.size : ℚ) / (1024 * 1024)
    · rw [create_backup_of_size_exceeded st arg content hfs hsz]; simp
    · rcases hmv : move_to_destination st.config st.uploadOk st.fs (tempPath st.config st.now)
          (backupFilename st.config st.now) with _ | ⟨fp, fs1⟩
      · rw [create_backup_of_move_none st arg content hfs hsz hmv]; simp
      · rw [create_backup_of_move_some st arg content fp fs1 hfs hsz hmv]
        dsimp only
        split
        · simp
        · simp

/-- C3 counterexample: an invocation that ends FAILED (the temp artifact
is missing, so getsize raises) returns without running retention cleanup:
the ghost flag is false and a stale COMPLETED record that cleanup would
have deleted is still in the record set afterwards. -/
theorem cleanup_skipped_on_failure_cex :
    (create_backup stC3 none).record.status = BackupStatus.failed ∧
    (create_backup stC3 none).cleanupRan = false ∧
    oldRec ∈ (create_backup stC3 none).state.records ∧
    oldRec.status = BackupStatus.completed ∧
    oldRec.created_at < stC3.now - (stC3.config.retention_days : Int) * 86400 := by
  rw [create_backup_of_lookup_none stC3 none rfl]
  refine ⟨rfl, rfl, ?_, rfl, by decide⟩
  exact List.mem_append_left _ (List.mem_cons_self _ _)

/-- C4 amended: file_path is non-empty exactly when the artifact reached
its final destination (status COMPLETED, or CORRUPTED after the
post-completion downgrade); checksum, however, is stamped as soon as the
local artifact has been built — before the size check and before
destination placement — so any record of a job whose artifact existed
locally carries a non-empty checksum even when the job then failed. -/
theorem file_path_checksum_lifecycle (st : ManagerState) (arg : Option BackupType) :
    ((create_backup st arg).record.file_path ≠ "" ↔
      ((create_backup st arg).record.status = BackupStatus.completed ∨
       (create_backup st arg).record.status = BackupStatus.corrupted)) ∧
    (∀ content, fsLookup st.fs (tempPath st.config st.now) = some content →
       (create_backup st arg).record.checksum ≠ "") := by
  constructor
  · rcases hfs : fsLookup st.fs (tempPath st.config st.now) with _ | content
    · rw [create_backup_of_lookup_none st arg hfs]; simp
    · by_cases hsz : (st.config.max_backup_size_mb : ℚ) < (content.size : ℚ) / (1024 * 1024)
      · rw [create_backup_of_size_exceeded st arg content hfs hsz]; simp
      · rcases hmv : move_to_destination st.config st.uploadOk st.fs (tempPath st.config st.now)
            (backupFilename st.config st.now) with _ | ⟨fp, fs1⟩
        · rw [create_backup_of_move_none st arg content hfs hsz hmv]; simp
        · rw [create_backup_of_move_some st arg content fp fs1 hfs hsz hmv]
          dsimp only
          split
          · exact iff_of_true (move_to_destination_ne_empty _ _ _ _ _ _ _ hmv) (Or.inr rfl)
          · exact iff_of_true (move_to_destination_ne_empty _ _ _ _ _ _ _ hmv) (Or.inl rfl)
  · intro content hfs
    by_cases hsz : (st.config.max_backup_size_mb : ℚ) < (content.size : ℚ) / (1024 * 1024)
    · rw [create_backup_of_size_exceeded st arg content hfs hsz]
      exact sha256hex_ne_empty content
    · rcases hmv : move_to_destination st.config st.uploadOk st.fs (tempPath st.config st.now)
          (backupFilename st.config st.now) with _ | ⟨fp, fs1⟩
      · rw [create_backup_of_move_none st arg content hfs hsz hmv]
        exact sha256hex_ne_empty content
      · rw [create_backup_of_move_some st arg content fp fs1 hfs hsz hmv]
        dsimp only
        split
        · exact sha256hex_ne_empty content
        · exact sha256hex_ne_empty content

/-- C4 amended, witness: on the concrete destination-failure state the
checksum is non-empty. -/
theorem file_path_checksum_lifecycle_witness :
    (create_backup stC4 none).record.checksum ≠ "" :=
  (file_path_checksum_lifecycle stC4 none).2 (FileData.bytes []) rfl

/-- C4 counterexample: a job that fails during destination placement (an
unsupported FTP destination) leaves file_path empty but carries a
non-empty checksum, contradicting the claim that both fields are still
empty on such a failure. -/
theorem checksum_nonempty_on_destination_failure_cex :
    (create_backup stC4 none).record.status = BackupStatus.failed ∧
    (create_backup stC4 none).record.error_message =
      some "Failed to move backup to destination" ∧
    (create_backup stC4 none).record.file_path = "" ∧
    (create_backup stC4 none).record.checksum ≠ "" := by
  have hfs : fsLookup stC4.fs (tempPath stC4.config stC4.now) = some (FileData.bytes []) := rfl
  have hsz : ¬ ((stC4.config.max_backup_size_mb : ℚ)
      < (((FileData.bytes []).size : ℚ)) / (1024 * 1024)) := by
    norm_num [stC4, cfgFtp, cfgLocal, FileData.size]
  have hmv : move_to_destination stC4.config stC4.uploadOk stC4.fs
      (tempPath stC4.config stC4.now) (backupFilename stC4.config stC4.now) = none := rfl
  rw [create_backup_of_move_none stC4 none (FileData.bytes []) hfs hsz hmv]
  exact ⟨rfl, rfl, rfl, sha256hex_ne_empty (FileData.bytes [])⟩

/-- C5: restore_backup is fail-fast in a fixed order.  An unknown id
returns failure with the state untouched; a record whose stored checksum
no longer matches returns failure with the state untouched, before any
decryption or extraction; and no failure path deletes any file (no
partial-extraction cleanup: a path absent from the filesystem after a
failed restore was already absent before it). -/
theorem restore_fail_fast (st : ManagerState) (backup_id restore_path : String) :
    (st.records.find? (fun r => r.id == backup_id) = none →
       restore_backup st backup_id restore_path = (false, st)) ∧
    (∀ r, st.records.find? (fun r => r.id == backup_id) = some r →
       verify_backup_integrity st.fs r = false →
       restore_backup st backup_id restore_path = (false, st)) ∧
    ((restore_backup st backup_id restore_path).1 = false →
       ∀ q, fsLookup (restore_backup st backup_id restore_path).2.fs q = none →
         fsLookup st.fs q = none) := by
  refine ⟨?_, ?_, ?_⟩
  · intro h
    unfold restore_backup
    rw [h]
  · intro r hr hv
    unfold restore_backup
    rw [hr]
    dsimp only
    rw [if_pos hv]
  · intro h1 q h2
    have key : ∀ r : BackupRecord,
        fsLookup (decryptStep st r).2.2 q = none → fsLookup st.fs q = none := by
      intro r hq2
      rcases decryptStep_fs st r with hfs2 | ⟨dp, inner, hfs2⟩
      · rw [hfs2] at hq2; exact hq2
      · rw [hfs2] at hq2
        by_cases hq : dp = q
        · subst hq
          rw [fsLookup_write_self] at hq2
          exact Option.noConfusion hq2
        · rw [fsLookup_write_ne st.fs dp q inner hq] at hq2
          exact hq2
    unfold restore_backup at h1 h2
    rcases hfind : st.records.find? (fun r => r.id == backup_id) with _ | r
    · rw [hfind] at h2
      exact h2
    · rw [hfind] at h1 h2
      dsimp only at h1 h2
      by_cases hv : verify_backup_integrity st.fs r = false
      · rw [if_pos hv] at h2
        exact h2
      · rw [if_neg hv] at h1 h2
        by_cases hs : (decryptStep st r).1 = false
        · rw [if_pos hs] at h2
          rw [decryptStep_false_fs st r hs] at h2
          exact h2
        · rw [if_neg hs] at h1 h2
          rcases hlk : fsLookup (decryptStep st r).2.2 (decryptStep st r).2.1 with _ | d
          · rw [hlk] at h2
            dsimp only at h2
            exact key r h2
          · rw [hlk] at h1 h2
            cases d with
            | bytes bs =>
                dsimp only at h2
                exact key r h2
            | archive entries =>
                dsimp only at h1
                exact absurd h1 (by simp)
            | encrypted k inner =>
                dsimp only at h2
                exact key r h2

/-- C5 witness: a non-existent id and a checksum-corrupted record both
fail with the state unchanged on the concrete test vectors. -/
theorem restore_fail_fast_witness :
    restore_backup stC5a "nope" "/restore" = (false, stC5a) ∧
    restore_backup stC5b "b1" "/restore" = (false, stC5b) :=
  ⟨(restore_fail_fast stC5a "nope" "/restore").1 rfl,
   (restore_fail_fast stC5b "b1" "/restore").2.1 rBad (by decide) (by decide)⟩

/-- C6: the size limit is exclusive at exactly max_backup_size_mb MB.  An
artifact of exactly the limit passes the size check (the job proceeds to
destination routing, so it ends COMPLETED or CORRUPTED, or FAILED only
with the destination message); an artifact one byte over ends FAILED with
the size-exceeded message and the local temp file is removed before
returning. -/
theorem size_boundary (st : ManagerState) (arg : Option BackupType) (content : FileData)
    (hfs : fsLookup st.fs (tempPath st.config st.now) = some content) :
    (content.size = st.config.max_backup_size_mb * 1024 * 1024 →
       ((create_backup st arg).record.status = BackupStatus.completed ∨
        (create_backup st arg).record.status = BackupStatus.corrupted ∨
        ((create_backup st arg).record.status = BackupStatus.failed ∧
         (create_backup st arg).record.error_message =
           some "Failed to move backup to destination"))) ∧
    (content.size = st.config.max_backup_size_mb * 1024 * 1024 + 1 →
       (create_backup st arg).record.status = BackupStatus.failed ∧
       (create_backup st arg).record.error_message =
         some ("Backup size exceeds limit: "
           ++ toString ((content.size : ℚ) / (1024 * 1024)) ++ "MB") ∧
       fsLookup (create_backup st arg).state.fs (tempPath st.config st.now) = none) := by
  constructor
  · intro hexact
    have hsz : ¬ ((st.config.max_backup_size_mb : ℚ) < (content.size : ℚ) / (1024 * 1024)) := by
      have key : ((st.config.max_backup_size_mb : ℚ) * 1024 * 1024) / (1024 * 1024)
          = (st.config.max_backup_size_mb : ℚ) := by
        field_simp
        ring
      rw [hexact]
      push_cast
      rw [key]
      exact lt_irrefl _
    rcases hmv : move_to_destination st.config st.uploadOk st.fs (tempPath st.config st.now)
        (backupFilename st.config st.now) with _ | ⟨fp, fs1⟩
    · rw [create_backup_of_move_none st arg content hfs hsz hmv]
      exact Or.inr (Or.inr ⟨rfl, rfl⟩)
    · rw [create_backup_of_move_some st arg content fp fs1 hfs hsz hmv]
      dsimp only
      split
      · exact Or.inr (Or.inl rfl)
      · exact Or.inl rfl
  · intro hover
    have hsz : (st.config.max_backup_size_mb : ℚ) < (content.size : ℚ) / (1024 * 1024) := by
      rw [hover]
      push_cast
      rw [lt_div_iff₀ (by norm_num : (0 : ℚ) < 1024 * 1024)]
      ring_nf
      linarith
    rw [create_backup_of_size_exceeded st arg content hfs hsz]
    exact ⟨rfl, rfl, fsLookup_remove_self st.fs _⟩

/-- C6 witness: with a zero-MB limit, a zero-byte artifact is accepted
and a one-byte artifact is rejected with the size message and its temp
file deleted. -/
theorem size_boundary_witness :
    ((create_backup stW6a none).record.status = BackupStatus.completed ∨
     (create_backup stW6a none).record.status = BackupStatus.corrupted ∨
     ((create_backup stW6a none).record.status = BackupStatus.failed ∧
      (create_backup stW6a none).record.error_message =
        some "Failed to move backup to destination")) ∧
    ((create_backup stW6b none).record.status = BackupStatus.failed ∧
     (create_backup stW6b none).record.error_message =
       some ("Backup size exceeds limit: "
         ++ toString (((FileData.bytes [0]).size : ℚ) / (1024 * 1024)) ++ "MB") ∧
     fsLookup (create_backup stW6b none).state.fs (tempPath stW6b.config stW6b.now) = none) :=
  ⟨(size_boundary stW6a none (FileData.bytes []) rfl).1 rfl,
   (size_boundary stW6b none (FileData.bytes [0]) rfl).2 rfl⟩

/-- C7: the incremental builder includes exactly the files of the source
tree whose last-modified time is strictly greater than the cutoff: it
always reports success; when no file qualifies (every mtime at or below
the cutoff, e.g. a cutoff in the future) it writes nothing; and when some
file qualifies the archive written at backup_path contains an entry for
precisely the strictly-newer files, named by their path relative to the
source. -/
theorem incremental_strictly_newer (tree : List SrcFile)
    (source_path backup_path : String) (cutoff : Int) (fs : FS) :
    (create_incremental_backup tree source_path backup_path cutoff fs).1 = true ∧
    ((∀ f ∈ tree, f.mtime ≤ cutoff) →
       (create_incremental_backup tree source_path backup_path cutoff fs).2 = fs) ∧
    ((∃ f ∈ tree, cutoff < f.mtime) →
       ∃ es, fsLookup (create_incremental_backup tree source_path backup_path cutoff fs).2
               backup_path = some (FileData.archive es) ∧
         ∀ nm bs, (nm, bs) ∈ es ↔
           ∃ f, f ∈ tree ∧ cutoff < f.mtime ∧
             nm = relpath f.path source_path ∧ bs = f.data) := by
  refine ⟨?_, ?_, ?_⟩
  · unfold create_incremental_backup
    dsimp only
    split <;> rfl
  · intro h
    have hnil : tree.filter (fun f => decide (cutoff < f.mtime)) = [] := by
      rw [List.filter_eq_nil_iff]
      intro f hf
      simpa using not_lt.mpr (h f hf)
    unfold create_incremental_backup
    rw [hnil]
    rfl
  · rintro ⟨f, hf, hm⟩
    have hmem : f ∈ tree.filter (fun f => decide (cutoff < f.mtime)) := by
      rw [List.mem_filter]
      exact ⟨hf, by simpa using hm⟩
    have hne : (tree.filter (fun f => decide (cutoff < f.mtime))).isEmpty = false := by
      rcases hcase : tree.filter (fun f => decide (cutoff < f.mtime)) with _ | ⟨a, l⟩
      · rw [hcase] at hmem; exact absurd hmem (List.not_mem_nil f)
      · rw [hcase]; rfl
    unfold create_incremental_backup
    dsimp only
    rw [if_neg (show ¬ ((tree.filter (fun f => decide (cutoff < f.mtime))).isEmpty = true) by
      rw [hne]; simp)]
    refine ⟨_, fsLookup_write_self fs backup_path _, ?_⟩
    intro nm bs
    constructor
    · intro hin
      rcases List.mem_map.mp hin with ⟨g, hg, hgeq⟩
      rcases List.mem_filter.mp hg with ⟨hgt, hgm⟩
      refine ⟨g, hgt, by simpa using hgm, ?_, ?_⟩
      · exact (congrArg Prod.fst hgeq).symm
      · exact (congrArg Prod.snd hgeq).symm
    · rintro ⟨g, hgt, hgm, hnm, hbs⟩
      refine List.mem_map.mpr ⟨g, List.mem_filter.mpr ⟨hgt, by simpa using hgm⟩, ?_⟩
      rw [hnm, hbs]

/-- C7 witness: with a future cutoff the builder writes nothing and
succeeds; with a cutoff between the two mtimes the archive holds exactly
the strictly-newer file. -/
theorem incremental_strictly_newer_witness :
    (create_incremental_backup treeW "/srcdir" "/tmp/inc.tar.gz" 20 []).1 = true ∧
    (create_incremental_backup treeW "/srcdir" "/tmp/inc.tar.gz" 20 []).2 = [] ∧
    (∃ es, fsLookup (create_incremental_backup treeW "/srcdir" "/tmp/inc.tar.gz" 5 []).2
             "/tmp/inc.tar.gz" = some (FileData.archive es) ∧
       ∀ nm bs, (nm, bs) ∈ es ↔
         ∃ f, f ∈ treeW ∧ 5 < f.mtime ∧ nm = relpath f.path "/srcdir" ∧ bs = f.data) :=
  ⟨(incremental_strictly_newer treeW "/srcdir" "/tmp/inc.tar.gz" 20 []).1,
   (incremental_strictly_newer treeW "/srcdir" "/tmp/inc.tar.gz" 20 []).2.1 (by decide),
   (incremental_strictly_newer treeW "/srcdir" "/tmp/inc.tar.gz" 5 []).2.2
     ⟨{ path := "/srcdir/a.txt", mtime := 10, data := [1] },
      List.mem_cons_self _ _, by decide⟩⟩

/-- C8: decrypting the encryption of any content under the same held key
restores the content exactly: encrypt_file writes a token for the input
file, decrypt_file accepts that token under the same key, and the
decrypted output file holds the original content. -/
theorem encrypt_decrypt_roundtrip (key : Nat) (fs : FS)
    (input_path mid_path output_path : String) (d : FileData)
    (hin : fsLookup fs input_path = some d) :
    (encrypt_file key fs input_path mid_path).1 = true ∧
    (decrypt_file key (encrypt_file key fs input_path mid_path).2 mid_path output_path).1
      = true ∧
    fsLookup (decrypt_file key (encrypt_file key fs input_path mid_path).2
        mid_path output_path).2 output_path = some d := by
  have he : encrypt_file key fs input_path mid_path
      = (true, fsWrite fs mid_path (FileData.encrypted key d)) := by
    unfold encrypt_file
    rw [hin]
  have hd : decrypt_file key (fsWrite fs mid_path (FileData.encrypted key d))
      mid_path output_path
      = (true, fsWrite (fsWrite fs mid_path (FileData.encrypted key d)) output_path d) := by
    unfold decrypt_file
    rw [fsLookup_write_self]
    dsimp only
    rw [if_pos rfl]
  rw [he]
  dsimp only
  rw [hd]
  exact ⟨rfl, rfl, fsLookup_write_self _ _ _⟩

/-- C8 witness: the round trip on a concrete two-byte file. -/
theorem encrypt_decrypt_roundtrip_witness :
    (encrypt_file 42 [("/a", FileData.bytes [7, 9])] "/a" "/a.enc").1 = true ∧
    (decrypt_file 42 (encrypt_file 42 [("/a", FileData.bytes [7, 9])] "/a" "/a.enc").2
        "/a.enc" "/a.dec").1 = true ∧
    fsLookup (decrypt_file 42 (encrypt_file 42 [("/a", FileData.bytes [7, 9])] "/a" "/a.enc").2
        "/a.enc" "/a.dec").2 "/a.dec" = some (FileData.bytes [7, 9]) :=
  encrypt_decrypt_roundtrip 42 [("/a", FileData.bytes [7, 9])] "/a" "/a.enc" "/a.dec"
    (FileData.bytes [7, 9]) rfl

/-- C9: restore_backup never mutates the record set or any field of any
record — the post-state carries the record list, the configuration and
the key of the pre-state unchanged; only the filesystem component can
differ. -/
theorem restore_confined_to_fs (st : ManagerState) (backup_id restore_path : String) :
    (restore_backup st backup_id restore_path).2.records = st.records ∧
    (restore_backup st backup_id restore_path).2.config = st.config ∧
    (restore_backup st backup_id restore_path).2.encKey = st.encKey ∧
    (restore_backup st backup_id restore_path).2.is_running = st.is_running := by
  obtain ⟨f, hf⟩ := restore_backup_state st backup_id restore_path
  rw [hf]
  exact ⟨rfl, rfl, rfl, rfl⟩

/-- C10: get_backup_status sums file_size_mb over COMPLETED records only
(a FAILED or CORRUPTED record with any nonzero size contributes nothing),
counts a CORRUPTED record in total_backups but in neither
completed_backups nor failed_backups, adds a COMPLETED record to the sum,
and on an empty record set reports zero counters and no last_backup. -/
theorem status_report_counts (st : ManagerState) (r : BackupRecord) :
    (st.records = [] →
       get_backup_status st =
         { total_backups := 0, completed_backups := 0, failed_backups := 0,
           total_size_mb := 0, last_backup := none,
           scheduler_running := st.is_running }) ∧
    (r.status = BackupStatus.corrupted ∨ r.status = BackupStatus.failed →
       (get_backup_status { st with records := r :: st.records }).total_size_mb
         = (get_backup_status st).total_size_mb) ∧
    (r.status = BackupStatus.corrupted →
       (get_backup_status { st with records := r :: st.records }).total_backups
           = (get_backup_status st).total_backups + 1 ∧
       (get_backup_status { st with records := r :: st.records }).completed_backups
           = (get_backup_status st).completed_backups ∧
       (get_backup_status { st with records := r :: st.records }).failed_backups
           = (get_backup_status st).failed_backups) ∧
    (r.status = BackupStatus.completed →
       (get_backup_status { st with records := r :: st.records }).total_size_mb
         = round2 (r.file_size_mb +
             ((st.records.filter (fun x => x.status == BackupStatus.completed)).map
               (fun x => x.file_size_mb)).sum)) := by
  refine ⟨?_, ?_, ?_, ?_⟩
  · intro h
    simp [get_backup_status, h, maxByCreated, round2]
  · rintro (h | h) <;> simp [get_backup_status, List.filter_cons, h]
  · intro h
    refine ⟨?_, ?_, ?_⟩ <;> simp [get_backup_status, List.filter_cons, h]
  · intro h
    simp [get_backup_status, List.filter_cons, h]

/-- C10 witness: the empty report, the non-contribution of a corrupted
record of size five next to one completed record of size two, its
counting in the total only, and the contribution of a completed record. -/
theorem status_report_counts_witness :
    (get_backup_status stEmpty =
       { total_backups := 0, completed_backups := 0, failed_backups := 0,
         total_size_mb := 0, last_backup := none, scheduler_running := stEmpty.is_running }) ∧
    (get_backup_status { st10 with records := rCor :: st10.records }).total_size_mb
        = (get_backup_status st10).total_size_mb ∧
    (get_backup_status { st10 with records := rCor :: st10.records }).total_backups
        = (get_backup_status st10).total_backups + 1 ∧
    (get_backup_status { st10 with records := rCor :: st10.records }).completed_backups
        = (get_backup_status st10).completed_backups ∧
    (get_backup_status { st10 with records := rComp :: st10.records }).total_size_mb
        = round2 (rComp.file_size_mb +
            ((st10.records.filter (fun x => x.status == BackupStatus.completed)).map
              (fun x => x.file_size_mb)).sum) :=
  ⟨(status_report_counts stEmpty rCor).1 rfl,
   (status_report_counts st10 rCor).2.1 (Or.inl rfl),
   ((status_report_counts st10 rCor).2.2.1 rfl).1,
   ((status_report_counts st10 rCor).2.2.1 rfl).2.1,
   (status_report_counts st10 rComp).2.2.2 rfl⟩

/-- C2 witness: the trace discipline and the frame facts instantiated on
a concrete empty-state invocation. -/
theorem status_never_leaves_terminal_witness :
    transitionsOk (create_backup stEmpty none).statusTrace = true ∧
    (restore_backup stEmpty "x" "/r").2.records = stEmpty.records :=
  ⟨(status_never_leaves_terminal stEmpty none "x" "/r").1,
   (status_never_leaves_terminal stEmpty none "x" "/r").2.2.1⟩

end Backup
